import Mathlib

/-!
Shallow embedding of the session-manager core of the `tool-library`
repository (`src/claude-api/session_manager.py` and
`src/claude-api/claude_api_v2.py`).

Python session records are JSON dictionaries; fields that the code adds
lazily (`archived_at`, `knowledge_received`, `parent_session`,
`knowledge_transfer`, `fork_instruction_sent`,
`awaiting_knowledge_transfer`) are modelled as `Option` fields that start
out `none`.  The metadata store (`ClaudeSessionManager.sessions`, a dict
persisted as one JSON document) is modelled as an association list keyed
by session id, with dict-update semantics (`setS`).  Filesystem state and
the external `claude` subprocess are environment inputs: the workspace is
a list of path/content pairs, the subprocess outcome is an `ExecResult`
parameter, and the heuristic discovery of the external conversation
handle (newest `.jsonl` file) is an `Option String` parameter.
-/

namespace ToolLibrary

/-- One entry of a session's `participants` list
(`session_manager.py`, `add_participant`). -/
structure Participant where
  name : String
  role : String
  joined_at : String
deriving DecidableEq

/-- A session record, as built by `ClaudeSessionManager.create_session`
plus every field the code adds later. -/
structure SessionInfo where
  id : String
  name : String
  description : String
  created_at : String
  last_accessed : String
  shared : Bool
  tags : List String
  workspace : String
  participants : List Participant
  claude_session_id : Option String
  message_count : Nat
  tool_usage : List (String × Nat)
  status : String
  archived_at : Option String := none
  knowledge_received : Option Bool := none
  parent_session : Option String := none
  knowledge_transfer : Option String := none
  fork_instruction_sent : Option Bool := none
  awaiting_knowledge_transfer : Option Bool := none
deriving DecidableEq

/-- The `awaiting_transfer.json` document written into a forked
session's workspace (`claude_api_v2.py`, `clone_session` handler). -/
structure TransferData where
  from_session_id : String
  to_session_id : String
  created_at : String
  status : String
  received_at : Option String := none
deriving DecidableEq

/-- The HTTP error classes the façade raises (`HTTPException` status
codes 404 / 403 / 500). -/
inductive ApiError where
  | notFound : ApiError
  | forbidden : ApiError
  | internal : String → ApiError
deriving DecidableEq

/-- Outcome of the external `claude` subprocess: either stdout on exit
code 0, or stderr text on a non-zero exit / a spawn exception
(`execute_claude` returns both failure shapes as the same dict). -/
inductive ExecResult where
  | ok : String → ExecResult
  | fail : String → ExecResult
deriving DecidableEq

/-- The dict returned by `execute_claude`. -/
structure ExecReturn where
  success : Bool
  response : Option String
  error : Option String
deriving DecidableEq

/-- The in-memory metadata store `ClaudeSessionManager.sessions`:
a JSON-object dict keyed by session id. -/
abbrev Store := List (String × SessionInfo)

/-- Dict lookup `sessions.get(session_id)`. -/
def lookupS : Store → String → Option SessionInfo
  | [], _ => none
  | e :: rest, sid => if e.1 = sid then some e.2 else lookupS rest sid

/-- Dict update `sessions[session_id] = info` (overwrites the existing
entry, otherwise appends, matching Python dict insertion order). -/
def setS : Store → String → SessionInfo → Store
  | [], sid, s => [(sid, s)]
  | e :: rest, sid, s =>
      if e.1 = sid then (sid, s) :: rest else e :: setS rest sid s

theorem lookupS_setS_self (st : Store) (sid : String) (s : SessionInfo) :
    lookupS (setS st sid s) sid = some s := by
  induction st with
  | nil => simp [setS, lookupS]
  | cons e rest ih =>
      by_cases h : e.1 = sid
      · simp [setS, lookupS, h]
      · simp [setS, lookupS, h, ih]

theorem lookupS_setS_ne (st : Store) (sid sid' : String) (s : SessionInfo)
    (h : sid' ≠ sid) : lookupS (setS st sid s) sid' = lookupS st sid' := by
  have h' : ¬ (sid = sid') := fun hh => h hh.symm
  induction st with
  | nil => simp [setS, lookupS, h']
  | cons e rest ih =>
      by_cases he : e.1 = sid
      · have he' : ¬ (e.1 = sid') := by rw [he]; exact h'
        simp only [setS, if_pos he, lookupS, if_neg h', if_neg he']
      · simp only [setS, if_neg he, lookupS, ih]

theorem setS_self (st : Store) (sid : String) (s : SessionInfo)
    (h : lookupS st sid = some s) : setS st sid s = st := by
  induction st with
  | nil => simp [lookupS] at h
  | cons e rest ih =>
      obtain ⟨e1, e2⟩ := e
      by_cases he : e1 = sid
      · simp only [lookupS, he, if_pos rfl] at h
        simp only [setS, he, if_pos rfl]
        simp_all
      · simp only [lookupS] at h
        rw [if_neg he] at h
        simp only [setS]
        rw [if_neg he, ih h]

/-- Content of one workspace file: plain text, or the structured
`awaiting_transfer.json` document. -/
inductive FileContent where
  | text : String → FileContent
  | transferRecord : TransferData → FileContent
deriving DecidableEq

/-- A workspace directory tree, as relative file paths (lists of path
segments) paired with file contents. -/
abbrev Workspace := List (List String × FileContent)

/-- Read the file at a path. -/
def wsGet : Workspace → List String → Option FileContent
  | [], _ => none
  | e :: rest, p => if e.1 = p then some e.2 else wsGet rest p

/-- Write (create or overwrite) the file at a path. -/
def wsSet : Workspace → List String → FileContent → Workspace
  | [], p, c => [(p, c)]
  | e :: rest, p, c =>
      if e.1 = p then (p, c) :: rest else e :: wsSet rest p c

theorem wsGet_wsSet_self (w : Workspace) (p : List String) (c : FileContent) :
    wsGet (wsSet w p c) p = some c := by
  induction w with
  | nil => simp [wsSet, wsGet]
  | cons e rest ih =>
      by_cases h : e.1 = p
      · simp [wsSet, wsGet, h]
      · simp [wsSet, wsGet, h, ih]

/-- Which paths the copy loop of `clone_session` copies
(`session_manager.py`, the `original_workspace.iterdir()` loop): every
top-level regular file unconditionally (`item.is_file()`), and the whole
contents of every top-level directory whose name is not `.claude`. -/
def copiedByClone : List String → Bool
  | [] => false
  | [_] => true
  | d :: _ :: _ => decide (d ≠ ".claude")

/-- Effect of the copy loop on the destination workspace: a copied
source file overwrites (`shutil.copy2`, `shutil.copytree` with
`dirs_exist_ok=True`) any destination file at the same path, and
destination files not shadowed by a copied source file are kept. -/
def cloneCopy (src dst : Workspace) : Workspace :=
  src.filter (fun e => copiedByClone e.1) ++
    dst.filter (fun e => !(copiedByClone e.1 && (wsGet src e.1).isSome))

/-- The `CLAUDE.md` context document written by
`create_session_context`, rendered from the session record exactly as
the Python f-string template does. -/
def claude_md_content (s : SessionInfo) : String :=
  "# Session: " ++ s.name ++ "\n\n" ++
  "## Session Information\n" ++
  "- **ID**: " ++ s.id ++ "\n" ++
  "- **Created**: " ++ s.created_at ++ "\n" ++
  "- **Description**: " ++ s.description ++ "\n" ++
  "- **Tags**: " ++ String.intercalate ", " s.tags ++ "\n" ++
  "- **Shared**: " ++ (if s.shared then "Yes" else "No") ++ "\n\n" ++
  "## CRITICAL: Register Your Session ID\n\n" ++
  "As your FIRST action, please execute these commands to enable conversation memory:\n" ++
  "```bash\n" ++
  "# Create a marker file with your Claude session ID\n" ++
  "echo \"CLAUDE_SESSION_REGISTERED\" > .session/registration_marker.txt\n\n" ++
  "# Send your session ID to the API\n" ++
  "curl -X POST http://localhost:8001/sessions/" ++ s.id ++ "/register-claude-session \\\n" ++
  "  -H \"Content-Type: application/json\" \\\n" ++
  "  -d '\x7b\"marker_file\": \".session/registration_marker.txt\"\x7d'\n" ++
  "```\n\n" ++
  "This step is ESSENTIAL for conversation memory to work across API calls.\n\n" ++
  "## Session Guidelines\n" ++
  "You are participating in a persistent session that may involve multiple participants over time.\n" ++
  "- Maintain context across all interactions\n" ++
  "- Reference previous decisions and discussions\n" ++
  "- Keep track of action items and progress\n" ++
  "- Update session state when significant changes occur\n\n" ++
  "## Available Tools\n" ++
  "All standard tools are available, plus:\n" ++
  "- `session-update` - Update session metadata\n" ++
  "- `session-note` - Add notes to session history\n" ++
  "- `session-invite` - Invite participants (if shared)\n\n" ++
  "## Session State\n" ++
  "You can store and retrieve session state:\n" ++
  "```bash\n" ++
  "# Store state\n" ++
  "echo '\x7b\"key\": \"value\"\x7d' > .session/state.json\n\n" ++
  "# Retrieve state  \n" ++
  "cat .session/state.json\n" ++
  "```\n\n" ++
  "## Collaboration\n" ++
  "When multiple participants are involved:\n" ++
  "- Summarize recent changes when a new participant joins\n" ++
  "- Maintain a decision log in .session/decisions.md\n" ++
  "- Track action items in .session/todos.md\n"

/-- The files `create_session_context` writes into a fresh workspace:
`CLAUDE.md` plus the `.session` state documents. -/
def initialWorkspaceFiles (s : SessionInfo) : Workspace :=
  [ (["CLAUDE.md"], .text (claude_md_content s)),
    ([".session", "state.json"], .text "\x7b\x7d"),
    ([".session", "decisions.md"],
      .text ("# Decisions Log - " ++ s.name ++ "\n\n")),
    ([".session", "todos.md"],
      .text ("# Action Items - " ++ s.name ++ "\n\n")) ]

/-- The knowledge excerpt stored by `receive_knowledge`
(`claude_api_v2.py`):
`knowledge[:500] + "..." if len(knowledge) > 500 else knowledge`. -/
def truncateKnowledge (s : String) : String :=
  if s.length > 500 then String.mk (s.data.take 500) ++ "..." else s

/-- The success-path record update of `execute_claude`: set
`last_accessed`, increment `message_count`, and store the discovered
external conversation handle when none is recorded yet. -/
def execUpd (s : SessionInfo) (now : String) (discovered : Option String) :
    SessionInfo :=
  let s1 := { s with last_accessed := now,
                     message_count := s.message_count + 1 }
  match s1.claude_session_id, discovered with
  | none, some d => { s1 with claude_session_id := some d }
  | _, _ => s1

/-- `execute_claude` (`claude_api_v2.py`).  The subprocess outcome is
the `exec` parameter: `.fail` covers both a non-zero exit status and an
exception during spawn (the code returns the same failure dict for
both, before touching any session state).  On success, if the session
id is in the store, the code sets `last_accessed`, increments
`message_count`, and — when no external conversation handle is recorded
yet — stores the handle discovered from the newest `.jsonl` file
(`discovered`, `none` when the project directory or files are absent),
then persists. -/
def execute_claude (st : Store) (session_id : String) (exec : ExecResult)
    (now : String) (discovered : Option String) : Store × ExecReturn :=
  match exec with
  | .fail err => (st, ⟨false, none, some err⟩)
  | .ok out =>
      (match lookupS st session_id with
       | none => st
       | some s => setS st session_id (execUpd s now discovered),
       ⟨true, some out, none⟩)

/-- `ClaudeSessionManager.add_participant`: appends a participant entry
with role `contributor` and persists, when the session exists. -/
def add_participant (st : Store) (sid participant : String) (now : String) :
    Store :=
  match lookupS st sid with
  | none => st
  | some s =>
      setS st sid
        { s with participants :=
            s.participants ++ [⟨participant, "contributor", now⟩] }

/-- Response body of `POST /sessions/{id}/messages`. -/
structure SendResponse where
  session_id : String
  participant : String
  prompt : String
  response : String
  timestamp : String
deriving DecidableEq

/-- The `send_message` handler (`claude_api_v2.py`).  `wsExists` is the
filesystem's answer to `workspace.exists()`.  Returns the store after
the call together with the HTTP result. -/
def send_message (st : Store) (wsExists : String → Bool)
    (sid prompt participant : String) (exec : ExecResult) (now : String)
    (discovered : Option String) : Store × Except ApiError SendResponse :=
  match lookupS st sid with
  | none => (st, .error .notFound)
  | some s =>
      if wsExists s.workspace = false then
        (st, .error (.internal "Session workspace not found"))
      else
        let st1 :=
          if s.shared && participant ≠ "" &&
              !(s.participants.any (fun p => p.name = participant)) then
            add_participant st sid participant now
          else st
        let _actual_prompt :=
          if s.shared then "[" ++ participant ++ "]: " ++ prompt else prompt
        let r := execute_claude st1 sid exec now discovered
        if r.2.success then
          (r.1, .ok ⟨sid, participant, prompt, r.2.response.getD "", now⟩)
        else
          (r.1, .error (.internal (r.2.error.getD "")))

/-- The field merge of the `update_session` handler: each of
`description`, `tags`, `shared` is overwritten exactly when the request
provides it (`is not None`). -/
def mergeFields (s : SessionInfo) (description : Option String)
    (tags : Option (List String)) (shared : Option Bool) : SessionInfo :=
  let s1 := match description with
            | some d => { s with description := d }
            | none => s
  let s2 := match tags with
            | some t => { s1 with tags := t }
            | none => s1
  match shared with
  | some b => { s2 with shared := b }
  | none => s2

/-- The `update_session` handler (`PUT /sessions/{id}`): 404 when the
session is absent, otherwise merges the provided fields, persists, and
returns the updated record. -/
def update_session (st : Store) (sid : String) (description : Option String)
    (tags : Option (List String)) (shared : Option Bool) :
    Except ApiError (Store × SessionInfo) :=
  match lookupS st sid with
  | none => .error .notFound
  | some s =>
      let s' := mergeFields s description tags shared
      .ok (setS st sid s', s')

/-- `ClaudeSessionManager.archive_session`: when the session exists,
sets `status` to `archived` and `archived_at` to the current time (on
every call), then persists; otherwise does nothing. -/
def archive_session (st : Store) (sid now : String) : Store :=
  match lookupS st sid with
  | none => st
  | some s =>
      setS st sid { s with status := "archived", archived_at := some now }

/-- The `POST /sessions/{id}/archive` handler: always responds
`"Session archived"`, whatever `archive_session` did. -/
def http_archive (st : Store) (sid now : String) : Store × String :=
  (archive_session st sid now, "Session archived")

/-- `ClaudeSessionManager.list_active_sessions`: the records whose
status is `active`. -/
def list_active_sessions (st : Store) : List SessionInfo :=
  (st.map (fun e => e.2)).filter (fun s => s.status = "active")

/-- The record built by `ClaudeSessionManager.create_session` (fresh
uuid and timestamps are the `session_id` / `now` parameters; the
workspace directory is `session_id` under `/tmp/claude-sessions`). -/
def create_session_record (session_id name description : String)
    (shared : Bool) (tags : List String) (now : String) : SessionInfo :=
  { id := session_id, name := name, description := description,
    created_at := now, last_accessed := now, shared := shared,
    tags := tags, workspace := "/tmp/claude-sessions/" ++ session_id,
    participants := [], claude_session_id := none, message_count := 0,
    tool_usage := [], status := "active" }

/-- `ClaudeSessionManager.create_session`: inserts the new record,
persists, and provisions the workspace via `create_session_context`. -/
def create_session (st : Store) (session_id name description : String)
    (shared : Bool) (tags : Option (List String)) (now : String) :
    Store × SessionInfo × Workspace :=
  let s := create_session_record session_id name description shared
    (tags.getD []) now
  (setS st session_id s, s, initialWorkspaceFiles s)

/-- `ClaudeSessionManager.clone_session`: `ValueError` when the source
is absent; otherwise creates the child via `create_session` with
description `Cloned from …` and the parent's tags plus `cloned`, copies
the parent's `claude_session_id` into the child when the parent has one
(the returned dict aliases the stored one, and the code re-persists),
and runs the workspace copy loop over the parent's workspace. -/
def clone_session (st : Store) (srcWs : Workspace)
    (sid newId new_name now : String) :
    Except ApiError (Store × SessionInfo × Workspace) :=
  match lookupS st sid with
  | none => .error .notFound
  | some orig =>
      let c := create_session st newId new_name
        ("Cloned from " ++ orig.name) orig.shared
        (some (orig.tags ++ ["cloned"])) now
      match orig.claude_session_id with
      | some cid =>
          let child := { c.2.1 with claude_session_id := some cid }
          .ok (setS c.1 newId child, child, cloneCopy srcWs c.2.2)
      | none => .ok (c.1, c.2.1, cloneCopy srcWs c.2.2)

/-- The `POST /sessions/{id}/clone` handler (`claude_api_v2.py`): calls
the manager's `clone_session` (404 on `ValueError`), writes the pending
transfer record `awaiting_transfer.json` into the child workspace,
sends the fork-instruction prompt to the *parent* session through
`execute_claude`, and returns the child record with the
`fork_instruction_sent` / `awaiting_knowledge_transfer` flags. -/
def http_clone (st : Store) (srcWs : Workspace)
    (sid newId new_name now : String) (forkExec : ExecResult)
    (discovered : Option String) :
    Except ApiError (Store × SessionInfo × Workspace) :=
  match clone_session st srcWs sid newId new_name now with
  | .error _ => .error .notFound
  | .ok (st1, child, dstWs) =>
      let transfer : TransferData :=
        { from_session_id := sid, to_session_id := child.id,
          created_at := now, status := "pending" }
      let dstWs1 :=
        wsSet dstWs [".session", "awaiting_transfer.json"]
          (.transferRecord transfer)
      let r := execute_claude st1 sid forkExec now discovered
      let child1 := { child with fork_instruction_sent := some r.2.success,
                                 awaiting_knowledge_transfer := some true }
      .ok (setS r.1 child.id child1, child1, dstWs1)

/-- Response body of `POST /sessions/{id}/receive-knowledge`. -/
structure ReceiveResponse where
  status : String
  message : String
  fork_response : String
deriving DecidableEq

/-- The `receive_knowledge` handler (`claude_api_v2.py`).  `tf` is the
content of `.session/awaiting_transfer.json` when that file exists.
404 when the session is absent; when a pending transfer record exists
and its recorded parent differs from `from_session`, 403 before any
mutation; otherwise the transfer record is rewritten as `received`,
the init prompt is run through `execute_claude`, and only on subprocess
success are the knowledge fields stored and persisted. -/
def receive_knowledge (st : Store) (tf : Option TransferData)
    (sid from_session knowledge : String) (exec : ExecResult)
    (now : String) (discovered : Option String) :
    Store × Option TransferData × Except ApiError ReceiveResponse :=
  match lookupS st sid with
  | none => (st, tf, .error .notFound)
  | some _ =>
      let checked : Except ApiError (Option TransferData) :=
        match tf with
        | some td =>
            if td.from_session_id ≠ from_session then .error .forbidden
            else .ok (some { td with status := "received",
                                     received_at := some now })
        | none => .ok none
      match checked with
      | .error e => (st, tf, .error e)
      | .ok tf' =>
          let r := execute_claude st sid exec now discovered
          if r.2.success then
            let st2 :=
              match lookupS r.1 sid with
              | some s1 =>
                  setS r.1 sid
                    { s1 with
                        knowledge_received := some true,
                        parent_session := some from_session,
                        knowledge_transfer :=
                          some (truncateKnowledge knowledge) }
              | none => r.1
            (st2, tf',
              .ok ⟨"success", "Knowledge transfer received",
                   r.2.response.getD ""⟩)
          else (r.1, tf', .error (.internal (r.2.error.getD "")))

/-- One parsed line of a `.jsonl` conversation log (only the fields the
modelled behavior inspects). -/
structure HistEntry where
  timestamp : String
  entry_type : String
deriving DecidableEq

/-- Stable insertion into a timestamp-sorted list. -/
def insertByTs (e : HistEntry) : List HistEntry → List HistEntry
  | [] => [e]
  | x :: xs =>
      if decide (x.timestamp ≤ e.timestamp) then x :: insertByTs e xs
      else e :: x :: xs

/-- `history.sort(key=lambda x: x.get('timestamp', ''))`. -/
def sortByTs : List HistEntry → List HistEntry
  | [] => []
  | e :: es => insertByTs e (sortByTs es)

/-- `ClaudeSessionManager.get_session_history`: empty when the session
is unknown; empty when the external tool's per-workspace project
directory does not exist; otherwise all `.jsonl` lines (`projectDir`)
sorted by timestamp. -/
def get_session_history (st : Store) (sid : String)
    (projectDir : Option (List HistEntry)) : List HistEntry :=
  match lookupS st sid with
  | none => []
  | some _ =>
      match projectDir with
      | none => []
      | some entries => sortByTs entries

/-- The `GET /sessions/{id}/history` endpoint up to its error check:
`if not history: raise HTTPException(404, "Session history not found")`
(the later per-turn reshaping is not reached on that path). -/
def http_get_history (st : Store) (sid : String)
    (projectDir : Option (List HistEntry)) :
    Except ApiError (List HistEntry) :=
  let h := get_session_history st sid projectDir
  if h.isEmpty then .error .notFound else .ok h

instance {ε α : Type} [DecidableEq ε] [DecidableEq α] :
    DecidableEq (Except ε α) := fun a b => by
  cases a with
  | ok x =>
      cases b with
      | ok y =>
          exact if h : x = y then isTrue (by rw [h]) else isFalse (by simp [h])
      | error y => exact isFalse (by simp)
  | error x =>
      cases b with
      | ok y => exact isFalse (by simp)
      | error y =>
          exact if h : x = y then isTrue (by rw [h]) else isFalse (by simp [h])

theorem lookupS_add_participant_self (st : Store)
    (sid participant now : String) (s : SessionInfo)
    (h : lookupS st sid = some s) :
    lookupS (add_participant st sid participant now) sid =
      some { s with participants :=
        s.participants ++ [⟨participant, "contributor", now⟩] } := by
  simp [add_participant, h, lookupS_setS_self]

/-- A concrete active shared session used to instantiate theorems. -/
def demoSession : SessionInfo :=
  { id := "s1", name := "T", description := "demo", created_at := "t0",
    last_accessed := "t0", shared := true, tags := ["x"],
    workspace := "/tmp/claude-sessions/s1", participants := [],
    claude_session_id := none, message_count := 2, tool_usage := [],
    status := "active" }

/-- C1: `send_message` fails with NotFound when the session id is
absent from the store; fails with Internal when the record exists but
its workspace directory is missing; and in every failing case —
including a non-zero exit or a spawn exception of the external process
— the record's `message_count` and `last_accessed` are the same after
the call as before it. -/
theorem send_message_error_cases (st : Store) (wsExists : String → Bool)
    (sid prompt participant now : String) (exec : ExecResult)
    (discovered : Option String) :
    (lookupS st sid = none →
      send_message st wsExists sid prompt participant exec now discovered
        = (st, .error .notFound)) ∧
    (∀ s, lookupS st sid = some s → wsExists s.workspace = false →
      send_message st wsExists sid prompt participant exec now discovered
        = (st, .error (.internal "Session workspace not found"))) ∧
    (∀ e, exec = .fail e →
      (∃ er,
        (send_message st wsExists sid prompt participant exec now
            discovered).2 = .error er) ∧
      (∀ s s', lookupS st sid = some s →
        lookupS (send_message st wsExists sid prompt participant exec now
            discovered).1 sid = some s' →
        s'.message_count = s.message_count ∧
        s'.last_accessed = s.last_accessed)) := by
  refine ⟨?_, ?_, ?_⟩
  · intro h
    simp [send_message, h]
  · intro s hs hw
    simp [send_message, hs, hw]
  · intro e he
    subst he
    cases hl : lookupS st sid with
    | none =>
        refine ⟨⟨.notFound, by simp [send_message, hl]⟩, ?_⟩
        intro s s' hs _
        exact absurd hs (by simp)
    | some s =>
        cases hw : wsExists s.workspace with
        | false =>
            refine ⟨⟨.internal "Session workspace not found",
              by simp [send_message, hl, hw]⟩, ?_⟩
            intro s0 s' hs0 hs'
            injection hs0 with h0
            subst h0
            simp only [send_message, hl, hw] at hs'
            simp at hs'
            rw [hl] at hs'
            injection hs' with h1
            rw [← h1]
            exact ⟨rfl, rfl⟩
        | true =>
            by_cases hc : (s.shared && participant ≠ "" &&
                !(s.participants.any (fun p => p.name = participant))) = true
            · refine ⟨⟨.internal e, ?_⟩, ?_⟩
              · simp [send_message, hl, hw, hc, execute_claude]
              · intro s0 s' hs0 hs'
                injection hs0 with h0
                subst h0
                simp only [send_message, hl, hw, hc, execute_claude] at hs'
                simp at hs'
                rw [lookupS_add_participant_self st sid participant now s hl]
                  at hs'
                injection hs' with h1
                rw [← h1]
                exact ⟨rfl, rfl⟩
            · refine ⟨⟨.internal e, ?_⟩, ?_⟩
              · simp [send_message, hl, hw, hc, execute_claude]
              · intro s0 s' hs0 hs'
                injection hs0 with h0
                subst h0
                simp only [send_message, hl, hw, hc, execute_claude] at hs'
                simp at hs'
                rw [hl] at hs'
                injection hs' with h1
                rw [← h1]
                exact ⟨rfl, rfl⟩

theorem send_message_error_cases_witness :
    send_message [] (fun _ => true) "s1" "hi" "alice"
      (.fail "boom") "t1" none = ([], .error .notFound) :=
  (send_message_error_cases [] (fun _ => true) "s1" "hi" "alice" "t1"
    (.fail "boom") none).1 rfl

/-- C9: for every identifier absent from the store, the archive
endpoint leaves the store unchanged and still responds
"Session archived" rather than failing with NotFound. -/
theorem archive_missing_session_reports_success (st : Store)
    (sid now : String) (h : lookupS st sid = none) :
    http_archive st sid now = (st, "Session archived") := by
  simp [http_archive, archive_session, h]

theorem archive_missing_session_reports_success_witness :
    http_archive [("s1", demoSession)] "zz" "t9"
      = ([("s1", demoSession)], "Session archived") :=
  archive_missing_session_reports_success [("s1", demoSession)] "zz" "t9"
    (by decide)

/-- C10: a `send` to a shared session naming a participant not yet in
the record appends and persists the participant entry before the
external process is executed, so the entry remains on the record even
when the execution fails. -/
theorem send_message_participant_persisted_on_failure (st : Store)
    (wsExists : String → Bool) (sid prompt participant now err : String)
    (discovered : Option String) (s : SessionInfo)
    (h : lookupS st sid = some s) (hw : wsExists s.workspace = true)
    (hsh : s.shared = true) (hp : participant ≠ "")
    (hnew : s.participants.any (fun p => p.name = participant) = false) :
    send_message st wsExists sid prompt participant (.fail err) now
        discovered
      = (setS st sid { s with participants :=
            s.participants ++ [⟨participant, "contributor", now⟩] },
         .error (.internal err)) ∧
    lookupS (send_message st wsExists sid prompt participant (.fail err)
        now discovered).1 sid
      = some { s with participants :=
          s.participants ++ [⟨participant, "contributor", now⟩] } := by
  have hcond : (s.shared && participant ≠ "" &&
      !(s.participants.any (fun p => p.name = participant))) = true := by
    simp [hsh, hp, hnew]
  have hstep : send_message st wsExists sid prompt participant (.fail err)
      now discovered
      = (add_participant st sid participant now, .error (.internal err)) := by
    simp only [send_message, h, hw]
    rw [if_neg (by simp), if_pos hcond]
    simp [execute_claude]
  refine ⟨?_, ?_⟩
  · rw [hstep]
    simp [add_participant, h]
  · rw [hstep]
    simp [add_participant, h, lookupS_setS_self]

theorem send_message_participant_persisted_on_failure_witness :
    lookupS (send_message [("s1", demoSession)] (fun _ => true) "s1" "hi"
        "alice" (.fail "boom") "t1" none).1 "s1"
      = some { demoSession with participants :=
          demoSession.participants ++ [⟨"alice", "contributor", "t1"⟩] } :=
  (send_message_participant_persisted_on_failure [("s1", demoSession)]
    (fun _ => true) "s1" "hi" "alice" "t1" "boom" none demoSession
    (by decide) rfl rfl (by decide) (by decide)).2

/-- C6: `update` with no fields set is a no-op on the record; `update`
with any subset of description/tags/shared set modifies exactly those
fields and leaves every other field of the record — and every other
record of the store — unchanged. -/
theorem update_session_frame (st : Store) (sid : String)
    (description : Option String) (tags : Option (List String))
    (shared : Option Bool) (s : SessionInfo)
    (h : lookupS st sid = some s) :
    update_session st sid none none none = .ok (st, s) ∧
    update_session st sid description tags shared
      = .ok (setS st sid (mergeFields s description tags shared),
             mergeFields s description tags shared) ∧
    (mergeFields s description tags shared).description
      = description.getD s.description ∧
    (mergeFields s description tags shared).tags = tags.getD s.tags ∧
    (mergeFields s description tags shared).shared
      = shared.getD s.shared ∧
    (mergeFields s description tags shared).id = s.id ∧
    (mergeFields s description tags shared).name = s.name ∧
    (mergeFields s description tags shared).created_at = s.created_at ∧
    (mergeFields s description tags shared).last_accessed
      = s.last_accessed ∧
    (mergeFields s description tags shared).workspace = s.workspace ∧
    (mergeFields s description tags shared).participants
      = s.participants ∧
    (mergeFields s description tags shared).claude_session_id
      = s.claude_session_id ∧
    (mergeFields s description tags shared).message_count
      = s.message_count ∧
    (mergeFields s description tags shared).tool_usage = s.tool_usage ∧
    (mergeFields s description tags shared).status = s.status ∧
    (∀ sid', sid' ≠ sid →
      lookupS (setS st sid (mergeFields s description tags shared)) sid'
        = lookupS st sid') := by
  have hnoop : setS st sid s = st := setS_self st sid s h
  cases description <;> cases tags <;> cases shared <;>
    simp [update_session, mergeFields, h, hnoop, lookupS_setS_ne] <;>
    (intro sid' hne; exact lookupS_setS_ne st sid sid' _ hne)

theorem update_session_frame_witness :
    update_session [("s1", demoSession)] "s1" none none none
      = .ok ([("s1", demoSession)], demoSession) :=
  (update_session_frame [("s1", demoSession)] "s1" (some "newdesc") none
    (some false) demoSession (by decide)).1

/-- C3 counterexample: archiving the same session at two different
times leaves `status` archived, but the second call *does* alter
`archived_at` — it overwrites it with the second call's timestamp. -/
theorem archive_archived_at_overwritten_cex :
    ((lookupS (archive_session [("s1", demoSession)] "s1" "t1") "s1").map
        (fun x => x.archived_at) = some (some "t1")) ∧
    ((lookupS (archive_session (archive_session [("s1", demoSession)]
          "s1" "t1") "s1" "t2") "s1").map (fun x => x.archived_at)
        = some (some "t2")) ∧
    (some "t2" : Option String) ≠ some "t1" := by
  exact ⟨by decide, by decide, by decide⟩

/-- C3 amended: `archive` is idempotent on `status` (a second call
leaves it `archived`, and archive never moves a record back to
`active`), but the second call overwrites `archived_at` with its own
timestamp; archived records stay in the store and are excluded from the
active-only listing. -/
theorem archive_idempotent_status (st : Store) (sid now1 now2 : String)
    (s : SessionInfo) (h : lookupS st sid = some s) :
    ((lookupS (archive_session st sid now1) sid).map (fun x => x.status)
      = some "archived") ∧
    ((lookupS (archive_session (archive_session st sid now1) sid now2)
        sid).map (fun x => x.status) = some "archived") ∧
    ((lookupS (archive_session (archive_session st sid now1) sid now2)
        sid).map (fun x => x.archived_at) = some (some now2)) ∧
    (∀ s2,
      lookupS (archive_session (archive_session st sid now1) sid now2) sid
        = some s2 →
      s2 ∉ list_active_sessions
        (archive_session (archive_session st sid now1) sid now2)) := by
  have h1 : lookupS (archive_session st sid now1) sid
      = some { s with status := "archived", archived_at := some now1 } := by
    simp [archive_session, h, lookupS_setS_self]
  have h2 : lookupS (archive_session (archive_session st sid now1) sid
        now2) sid
      = some { s with status := "archived", archived_at := some now2 } := by
    generalize hst1 : archive_session st sid now1 = st1 at h1
    simp [archive_session, h1, lookupS_setS_self]
  refine ⟨by rw [h1]; rfl, by rw [h2]; rfl, by rw [h2]; rfl, ?_⟩
  intro s2 hs2 hmem
  rw [h2] at hs2
  injection hs2 with hh
  have hst : s2.status = "archived" := by rw [← hh]
  have hact : s2.status = "active" :=
    by simpa using (List.mem_filter.mp hmem).2
  rw [hst] at hact
  exact absurd hact (by decide)

theorem archive_idempotent_status_witness :
    ((lookupS (archive_session [("s1", demoSession)] "s1" "t1")
        "s1").map (fun x => x.status) = some "archived") :=
  (archive_idempotent_status [("s1", demoSession)] "s1" "t1" "t2"
    demoSession (by decide)).1

/-- C2: `receive_knowledge` with a pending transfer record whose
recorded parent differs from `from_session` fails with Forbidden and
changes nothing: the store (hence the record's knowledge fields) and
the transfer record are exactly as before. -/
theorem receive_knowledge_forbidden_no_mutation (st : Store)
    (td : TransferData) (sid from_session knowledge now : String)
    (exec : ExecResult) (discovered : Option String) (s : SessionInfo)
    (h : lookupS st sid = some s)
    (hm : td.from_session_id ≠ from_session) :
    receive_knowledge st (some td) sid from_session knowledge exec now
        discovered = (st, some td, .error .forbidden) := by
  simp only [receive_knowledge, h]
  rw [if_pos hm]

theorem receive_knowledge_forbidden_no_mutation_witness :
    receive_knowledge [("s1", demoSession)]
        (some ⟨"parent", "s1", "t0", "pending", none⟩) "s1" "other" "k"
        (.ok "r") "t1" none
      = ([("s1", demoSession)],
         some ⟨"parent", "s1", "t0", "pending", none⟩,
         .error .forbidden) :=
  receive_knowledge_forbidden_no_mutation [("s1", demoSession)]
    ⟨"parent", "s1", "t0", "pending", none⟩ "s1" "other" "k" "t1"
    (.ok "r") none demoSession (by decide) (by decide)

/-- C8 counterexample: for an existing session whose conversation-log
project directory does not exist, the history endpoint returns a 404
error to its caller, not an empty history. -/
theorem history_endpoint_absent_dir_cex :
    (lookupS [("s1", demoSession)] "s1").isSome = true ∧
    http_get_history [("s1", demoSession)] "s1" none
      = .error .notFound := by
  exact ⟨by decide, by decide⟩

/-- C8 amended: for an existing session whose project directory is
absent, the session manager's history function returns an empty list
(no error), but the HTTP endpoint then converts the empty history into
a 404 error, so the API caller receives an error. -/
theorem history_absent_dir_empty (st : Store) (sid : String)
    (s : SessionInfo) (h : lookupS st sid = some s) :
    get_session_history st sid none = [] ∧
    http_get_history st sid none = .error .notFound := by
  constructor
  · simp [get_session_history, h]
  · simp [http_get_history, get_session_history, h]

theorem history_absent_dir_empty_witness :
    get_session_history [("s1", demoSession)] "s1" none = [] :=
  (history_absent_dir_empty [("s1", demoSession)] "s1" demoSession
    (by decide)).1

/-- A parent workspace as the clone copy loop sees it: its own
registration context `CLAUDE.md`, a work file, the external CLI's
private state directory `.claude`, and the `.session` state
directory. -/
def parentWs : Workspace :=
  [ (["CLAUDE.md"], .text "parent registration context"),
    (["notes.txt"], .text "parent notes"),
    ([".claude", "settings.json"], .text "cli private state"),
    ([".session", "state.json"], .text "parent state") ]

/-- The destination workspace as freshly seeded for the child, before
the copy loop runs over it. -/
def childSeedWs : Workspace :=
  [ (["CLAUDE.md"], .text "child registration context") ]

/-- C5: the copy loop does exclude the top-level `.claude` directory
and copies the other files and directory contents, but it copies every
top-level file unconditionally — `CLAUDE.md` included — so the
destination's own registration context document is replaced by the
source's instead of being preserved. -/
theorem clone_copy_claude_md_overwrite :
    wsGet (cloneCopy parentWs childSeedWs) ["notes.txt"]
      = some (.text "parent notes") ∧
    wsGet (cloneCopy parentWs childSeedWs) [".session", "state.json"]
      = some (.text "parent state") ∧
    wsGet (cloneCopy parentWs childSeedWs) [".claude", "settings.json"]
      = none ∧
    wsGet childSeedWs ["CLAUDE.md"]
      = some (.text "child registration context") ∧
    wsGet (cloneCopy parentWs childSeedWs) ["CLAUDE.md"]
      = some (.text "parent registration context") := by
  exact ⟨by decide, by decide, by decide, by decide, by decide⟩

theorem execute_claude_ok_lookup_some (st : Store) (sid out now : String)
    (d : Option String) (s : SessionInfo) (h : lookupS st sid = some s) :
    lookupS (execute_claude st sid (.ok out) now d).1 sid
      = some (execUpd s now d) := by
  simp only [execute_claude, h]
  exact lookupS_setS_self st sid _

theorem truncate_le_length (k : String) (hk : k.length ≤ 500) :
    truncateKnowledge k = k := by
  unfold truncateKnowledge
  rw [if_neg (by omega)]

theorem truncate_gt_length (k : String) (hk : 500 < k.length) :
    (truncateKnowledge k).length = 503 := by
  obtain ⟨kd⟩ := k
  unfold truncateKnowledge
  rw [if_pos hk]
  rw [String.length_append]
  have h1 : (String.mk ((String.mk kd).data.take 500)).length = 500 := by
    show (kd.take 500).length = 500
    rw [List.length_take]
    have h2 : 500 < kd.length := hk
    omega
  rw [h1]
  decide

/-- The 501-character knowledge text used against C4. -/
def longKnowledge : String := String.mk (List.replicate 501 'a')

set_option maxRecDepth 20000 in
/-- C4 counterexample: a successful `receive_knowledge` call whose
input knowledge text is 501 characters stores an excerpt of 503
characters (`knowledge[:500] + "..."`), which is not at most 500. -/
theorem knowledge_excerpt_overlong_cex :
    ((receive_knowledge [("s1", demoSession)] none "s1" "parent"
        longKnowledge (.ok "r") "t1" none).2.2
      = .ok ⟨"success", "Knowledge transfer received", "r"⟩) ∧
    (((lookupS (receive_knowledge [("s1", demoSession)] none "s1" "parent"
        longKnowledge (.ok "r") "t1" none).1 "s1").bind
      (fun x => x.knowledge_transfer)).map (fun x => x.length)
      = some 503) ∧
    ¬ (503 ≤ 500) := by
  exact ⟨by decide, by decide, by decide⟩

/-- C4 amended: a successful `receive_knowledge` stores
`knowledge[:500] + "..."` — the input itself when it is at most 500
characters, and otherwise the first 500 characters followed by an
ellipsis, 503 characters in total (not at most 500). -/
theorem receive_knowledge_truncation (st : Store) (tf : Option TransferData)
    (sid from_session knowledge out now : String) (d : Option String)
    (s : SessionInfo) (h : lookupS st sid = some s)
    (htf : ∀ td, tf = some td → td.from_session_id = from_session) :
    (∃ s', lookupS (receive_knowledge st tf sid from_session knowledge
        (.ok out) now d).1 sid = some s' ∧
      s'.knowledge_transfer = some (truncateKnowledge knowledge)) ∧
    (knowledge.length ≤ 500 → truncateKnowledge knowledge = knowledge) ∧
    (500 < knowledge.length →
      (truncateKnowledge knowledge).length = 503) := by
  refine ⟨?_, fun hk => truncate_le_length knowledge hk,
    fun hk => truncate_gt_length knowledge hk⟩
  have hx := execute_claude_ok_lookup_some st sid out now d s h
  have hfinal : lookupS (receive_knowledge st tf sid from_session knowledge
      (.ok out) now d).1 sid
      = some { execUpd s now d with
          knowledge_received := some true,
          parent_session := some from_session,
          knowledge_transfer := some (truncateKnowledge knowledge) } := by
    cases tf with
    | none =>
        simp only [receive_knowledge, h, execute_claude] at hx ⊢
        rw [hx]
        exact lookupS_setS_self _ sid _
    | some td =>
        have hm := htf td rfl
        simp only [receive_knowledge, h, execute_claude] at hx ⊢
        rw [if_neg (by simp [hm])]
        rw [hx]
        exact lookupS_setS_self _ sid _
  exact ⟨_, hfinal, rfl⟩

theorem receive_knowledge_truncation_witness :
    (∃ s', lookupS (receive_knowledge [("s1", demoSession)] none "s1"
        "parent" "k" (.ok "r") "t1" none).1 "s1" = some s' ∧
      s'.knowledge_transfer = some (truncateKnowledge "k")) ∧
    (("k" : String).length ≤ 500 → truncateKnowledge "k" = "k") ∧
    (500 < ("k" : String).length →
      (truncateKnowledge "k").length = 503) :=
  receive_knowledge_truncation [("s1", demoSession)] none "s1" "parent"
    "k" "r" "t1" none demoSession (by decide)
    (fun td htd => by simp at htd)

/-- C7: cloning an existing session A into a child B gives B the tag
list of A with "cloned" appended, gives B exactly A's external
conversation handle (absent when A has none), and leaves a transfer
record in B's workspace whose parent is A, whose child is B, and whose
status is "pending". -/
theorem clone_child_properties (st : Store) (srcWs : Workspace)
    (sid newId new_name now : String) (forkExec : ExecResult)
    (discovered : Option String) (orig : SessionInfo)
    (h : lookupS st sid = some orig) :
    ∃ st' child dstWs,
      http_clone st srcWs sid newId new_name now forkExec discovered
        = .ok (st', child, dstWs) ∧
      child.tags = orig.tags ++ ["cloned"] ∧
      child.claude_session_id = orig.claude_session_id ∧
      child.id = newId ∧
      wsGet dstWs [".session", "awaiting_transfer.json"]
        = some (.transferRecord
            { from_session_id := sid, to_session_id := newId,
              created_at := now, status := "pending" }) := by
  cases hcs : orig.claude_session_id with
  | none =>
      simp only [http_clone, clone_session, create_session,
        create_session_record, h, hcs]
      refine ⟨_, _, _, rfl, by simp, by simp [hcs], rfl, ?_⟩
      exact wsGet_wsSet_self _ _ _
  | some cid =>
      simp only [http_clone, clone_session, create_session,
        create_session_record, h, hcs]
      refine ⟨_, _, _, rfl, by simp, by simp [hcs], rfl, ?_⟩
      exact wsGet_wsSet_self _ _ _

theorem clone_child_properties_witness :
    ∃ st' child dstWs,
      http_clone [("s1", demoSession)] [] "s1" "s2" "B-fork" "t1"
          (.ok "done") none = .ok (st', child, dstWs) ∧
      child.tags = demoSession.tags ++ ["cloned"] ∧
      child.claude_session_id = demoSession.claude_session_id ∧
      child.id = "s2" ∧
      wsGet dstWs [".session", "awaiting_transfer.json"]
        = some (.transferRecord
            { from_session_id := "s1", to_session_id := "s2",
              created_at := "t1", status := "pending" }) :=
  clone_child_properties [("s1", demoSession)] [] "s1" "s2" "B-fork"
    "t1" (.ok "done") none demoSession (by decide)

end ToolLibrary
